import Mathlib

/-!
# Verification of the gem5 SE driver script `se3.py`

A shallow embedding of the parts of `se3.py` that carry sequencing logic:

* the pipeline / thread configuration applied to each CPU object before
  `m5.instantiate()` (branch predictor, issue width, `numThreads`, and, for
  `DerivO3CPU`, the five stage widths, tracer and progress interval);
* the interval-driven run/checkpoint loop that calls
  `m5.simulate(cycle_interval)`, `m5.stats.dump()`, `m5.stats.reset()`,
  increments `current_cycle`, and archives `m5out/stats.txt` under a
  timestamp-and-cycle-qualified name, followed by the final unconditional
  `m5.stats.dump()` and the trailing argument-less `m5.simulate()`.

The external engine (`m5`) is opaque: its calls are recorded as events in a
trace.  The wall clock (`time.strftime`) and the filesystem check
(`os.path.exists`) are inputs of the model, supplied per iteration as the
functions `ts` and `ex`.
-/

/-! ## Events emitted by the script after `m5.instantiate()` -/

/-- One observable action of the script: a call into the `m5` engine, an
`os.rename`, or a `print`.  `simulate none` is `m5.simulate()` called with no
argument; `simulate (some n)` is `m5.simulate(n)`. -/
inductive Event where
  | simulate (cycles : Option Nat)
  | statsDump
  | statsReset
  | rename (src dest : String)
  | output (msg : String)
deriving DecidableEq

/-! ## Paths, as built by the script -/

/-- The directory constant `m5out_dir = "m5out"` (line 146 of `se3.py`). -/
def m5out_dir : String := "m5out"

/-- Model of `os.path.join` for the one-directory case used by the script. -/
def pathJoin (d f : String) : String := d ++ "/" ++ f

/-- The well-known path `stats_file_path = os.path.join(m5out_dir, "stats.txt")` (line 147). -/
def stats_file_path : String := pathJoin m5out_dir "stats.txt"

/-- The archive destination `new_stats_filename = os.path.join(m5out_dir,
f"stats_{timestamp}_cycle_{current_cycle}.txt")` (line 148). -/
def new_stats_filename (timestamp : String) (current_cycle : Nat) : String :=
  pathJoin m5out_dir
    ("stats_" ++ timestamp ++ "_cycle_" ++ Nat.repr current_cycle ++ ".txt")

/-! ## The loop body -/

/-- The archive step of one iteration (lines 144–154): with `current_cycle`
already incremented, if `m5out/stats.txt` exists it is renamed to the fresh
name and a success line is printed; otherwise only a warning is printed. -/
def archiveStep (timestamp : String) (current_cycle : Nat)
    (statsExists : Bool) : List Event :=
  if statsExists then
    [Event.rename stats_file_path (new_stats_filename timestamp current_cycle),
     Event.output ("Stats file saved as " ++ new_stats_filename timestamp current_cycle)]
  else
    [Event.output "stats.txt not found in m5out."]

/-- The events of one full iteration of the `while` loop (lines 131–154):
`m5.simulate(cycle_interval)`, `m5.stats.dump()`, `m5.stats.reset()`, then —
after `current_cycle` has been incremented to `c'` — the archive step. -/
def iterEvents (L c' : Nat) (timestamp : String) (statsExists : Bool) : List Event :=
  [Event.simulate (some L), Event.statsDump, Event.statsReset] ++
    archiveStep timestamp c' statsExists

/-! ## The loop itself

The `while current_cycle < total_cycles` loop is embedded with explicit fuel
(the recursion returns `none` when the fuel runs out before the guard turns
false).  `c` is `current_cycle`, `i` is the 0-based iteration index used to
query the environment functions `ts` (wall clock) and `ex` (file existence). -/

/-- Fuel-indexed embedding of the run/checkpoint `while` loop.  Returns the
event trace of the loop together with the final value of `current_cycle`, or
`none` if `fuel` iterations did not suffice to falsify the guard. -/
def runCheckpointLoop (L B : Nat) (ts : Nat → String) (ex : Nat → Bool) :
    Nat → Nat → Nat → Option (List Event × Nat)
  | 0, c, _ => if c < B then none else some ([], c)
  | fuel + 1, c, i =>
    if c < B then
      match runCheckpointLoop L B ts ex fuel (c + L) (i + 1) with
      | none => none
      | some (evs, fin) => some (iterEvents L (c + L) (ts i) (ex i) ++ evs, fin)
    else
      some ([], c)

/-- The events after the loop (lines 156–162): the final unconditional
`m5.stats.dump()`, the argument-less `m5.simulate()`, and the completion
message. -/
def scriptTail : List Event :=
  [Event.statsDump, Event.simulate none,
   Event.output "Detailed cycle-by-cycle simulation complete."]

/-- The whole post-`instantiate` run of the script: loop from
`current_cycle = 0`, then `scriptTail`.  Fuel `B + 1` is enough whenever
`L ≥ 1` (proved below). -/
def scriptRun (L B : Nat) (ts : Nat → String) (ex : Nat → Bool) :
    Option (List Event × Nat) :=
  match runCheckpointLoop L B ts ex (B + 1) 0 0 with
  | none => none
  | some (evs, fin) => some (evs ++ scriptTail, fin)

/-- The constant `cycle_interval = 10` (line 126). -/
def cycle_interval : Nat := 10

/-- The constant `total_cycles = 100` (line 127). -/
def total_cycles : Nat := 100

/-! ## Closed-form description of the loop trace -/

/-- The trace the loop produces when started at counter `c`, iteration index
`i`, running for exactly `n` further iterations. -/
def loopTrace (L : Nat) (ts : Nat → String) (ex : Nat → Bool) :
    Nat → Nat → Nat → List Event
  | _, _, 0 => []
  | c, i, n + 1 =>
    iterEvents L (c + L) (ts i) (ex i) ++ loopTrace L ts ex (c + L) (i + 1) n

/-- Number of iterations the loop still performs from counter value `c`:
`⌈(B - c) / L⌉`. -/
def numIntervalsFrom (L B c : Nat) : Nat := (B - c + L - 1) / L

/-- Number of iterations of the whole loop: `⌈B / L⌉`. -/
def numIntervals (L B : Nat) : Nat := (B + L - 1) / L

/-- The destination names of all `os.rename` events in a trace, in order. -/
def archivedNames (l : List Event) : List String :=
  l.filterMap fun e =>
    match e with
    | Event.rename _ d => some d
    | _ => none

/-! ## Configuration model (lines 19–37 and 69–106)

CPU attributes are `Option`-valued: `none` means the script never assigned
the attribute (the engine's default stands). -/

/-- The CPU classes selectable through `--cpu-type` that matter here. -/
inductive CpuType where
  | derivO3
  | timingSimple
  | atomicSimple
deriving DecidableEq

/-- Multithreading support as asserted by the script itself:
`get_processes` contains `assert args.cpu_type == "DerivO3CPU"` on the SMT
path (line 34), i.e. only `DerivO3CPU` is taken to support it. -/
def supportsSMT : CpuType → Bool
  | CpuType.derivO3 => true
  | _ => false

/-- The attributes of one CPU object that the script assigns. -/
structure CPUState where
  branchPred : Option String := none
  issueWidth : Option Nat := none
  fetchWidth : Option Nat := none
  decodeWidth : Option Nat := none
  executeWidth : Option Nat := none
  commitWidth : Option Nat := none
  numThreads : Option Nat := none
  tracer : Option String := none
  progressInterval : Option Nat := none
deriving DecidableEq

/-- A freshly constructed CPU object: nothing assigned yet. -/
def initCPU : CPUState := {}

/-- Line 74: `cpu.branchPred = BranchPredictor(predictor="StaticPred")`. -/
def setBranchPred (c : CPUState) : CPUState := { c with branchPred := some "StaticPred" }

/-- Line 78: `cpu.issueWidth = 4`. -/
def setIssueWidth4 (c : CPUState) : CPUState := { c with issueWidth := some 4 }

/-- Lines 96–106 (`DerivO3CPU` branch): the five stage widths, the tracer and
the per-cycle progress interval. -/
def setO3Detail (c : CPUState) : CPUState :=
  { c with fetchWidth := some 4, decodeWidth := some 4, issueWidth := some 4,
           executeWidth := some 4, commitWidth := some 4,
           tracer := some "ExeTracer", progressInterval := some 1 }

/-- Line 92: `system.cpu[0].numThreads = 2` — applied to the first CPU only,
unconditionally. -/
def setNumThreads2 : List CPUState → List CPUState
  | [] => []
  | c :: rest => { c with numThreads := some 2 } :: rest

/-- The configuration the script applies to its `np` CPUs, in source order:
branch predictor (73–74), issue width (77–78), `numThreads` on cpu 0 (91–92),
then — only when the CPU class is `DerivO3CPU` — the detailed-pipeline block
(96–106). -/
def configureCpus (cpuType : CpuType) (np : Nat) : List CPUState :=
  let cpus := List.replicate np initCPU
  let cpus := cpus.map setBranchPred
  let cpus := cpus.map setIssueWidth4
  let cpus := setNumThreads2 cpus
  if cpuType = CpuType.derivO3 then cpus.map setO3Detail else cpus

/-- The one error the script can raise during configuration: a Python
`AssertionError` (from the `assert` in `get_processes`, line 34). -/
inductive ScriptError where
  | assertionError (cond : String)
deriving DecidableEq

/-- The control-relevant part of `get_processes` (lines 19–37): under
`args.smt` it asserts the CPU type is `DerivO3CPU` and returns the workload
count as the thread count, otherwise it returns 1. -/
def get_processes (smt : Bool) (cpuType : CpuType) (numWorkloads : Nat) :
    Except ScriptError Nat :=
  if smt then
    if cpuType = CpuType.derivO3 then Except.ok numWorkloads
    else Except.error (ScriptError.assertionError "args.cpu_type == DerivO3CPU")
  else Except.ok 1

/-- The script's configuration phase end to end: `get_processes` first (its
`assert` is the only way to fail), then the in-place CPU configuration. -/
def configureScript (smt : Bool) (cpuType : CpuType) (np numWorkloads : Nat) :
    Except ScriptError (List CPUState) :=
  match get_processes smt cpuType numWorkloads with
  | Except.error e => Except.error e
  | Except.ok _ => Except.ok (configureCpus cpuType np)

/-! ## Decimal digit decoding (for injectivity of `Nat.repr`) -/

/-- Big-endian decimal digit characters of `n` — the functional shape of
core's fuel-based `Nat.toDigitsCore`. -/
def natDigits : Nat → List Char
  | n =>
    if _ : n < 10 then [Nat.digitChar n]
    else natDigits (n / 10) ++ [Nat.digitChar (n % 10)]
decreasing_by exact Nat.div_lt_self (by omega) (by omega)

/-- Decode one decimal digit character. -/
def decDigit (c : Char) : Nat := c.toNat - 48

/-- Decode a big-endian decimal digit list. -/
def decList (l : List Char) : Nat := l.foldl (fun a c => 10 * a + decDigit c) 0

/-! ## Arithmetic of the interval count -/

theorem numIntervalsFrom_eq_zero {L B c : Nat} (hL : 0 < L) (h : B ≤ c) :
    numIntervalsFrom L B c = 0 := by
  have h1 : B - c + L - 1 = L - 1 := by omega
  unfold numIntervalsFrom
  rw [h1]
  exact Nat.div_eq_of_lt (by omega)

theorem numIntervalsFrom_succ {L B c : Nat} (hL : 0 < L) (h : c < B) :
    numIntervalsFrom L B c = numIntervalsFrom L B (c + L) + 1 := by
  unfold numIntervalsFrom
  rcases le_or_lt L (B - c) with hd | hd
  · have e1 : B - c + L - 1 = (B - c - 1) + L := by omega
    have e2 : B - (c + L) + L - 1 = B - c - 1 := by omega
    rw [e1, e2, Nat.add_div_right _ hL]
  · have e1 : B - (c + L) + L - 1 = L - 1 := by omega
    have e2 : (L - 1) / L = 0 := Nat.div_eq_of_lt (by omega)
    rw [e1, e2]
    have lo : 1 * L ≤ B - c + L - 1 := by omega
    have hi : B - c + L - 1 < (1 + 1) * L := by omega
    rw [Nat.div_eq_of_lt_le lo hi]

/-! ## Characterization of the loop -/

/-- With positive interval length and enough fuel, the loop computes the
closed-form trace `loopTrace` and final counter `c + L * ⌈(B - c)/L⌉`. -/
theorem runCheckpointLoop_eq (L B : Nat) (ts : Nat → String) (ex : Nat → Bool)
    (hL : 0 < L) :
    ∀ (fuel c i : Nat), B ≤ c + fuel * L →
      runCheckpointLoop L B ts ex fuel c i =
        some (loopTrace L ts ex c i (numIntervalsFrom L B c),
              c + L * numIntervalsFrom L B c) := by
  intro fuel
  induction fuel with
  | zero =>
    intro c i h
    have hcB : B ≤ c := by simpa using h
    rw [numIntervalsFrom_eq_zero hL hcB]
    simp [runCheckpointLoop, loopTrace, Nat.not_lt.mpr hcB]
  | succ fuel ih =>
    intro c i h
    by_cases hc : c < B
    · have hh : c + (fuel + 1) * L = (c + L) + fuel * L := by ring
      rw [hh] at h
      have hrec := ih (c + L) (i + 1) h
      rw [numIntervalsFrom_succ hL hc]
      simp only [runCheckpointLoop, if_pos hc, hrec]
      simp only [loopTrace, Option.some.injEq, Prod.mk.injEq, true_and]
      ring
    · rw [numIntervalsFrom_eq_zero hL (Nat.le_of_not_lt hc)]
      simp [runCheckpointLoop, loopTrace, hc]

/-- The whole run: loop trace followed by the tail, with final counter
`L * ⌈B/L⌉`. -/
theorem scriptRun_eq (L B : Nat) (ts : Nat → String) (ex : Nat → Bool)
    (hL : 0 < L) :
    scriptRun L B ts ex =
      some (loopTrace L ts ex 0 0 (numIntervals L B) ++ scriptTail,
            L * numIntervals L B) := by
  have h1 : (B + 1) * 1 ≤ (B + 1) * L := Nat.mul_le_mul_left (B + 1) hL
  have hfuel : B ≤ 0 + (B + 1) * L := by
    have h2 : B + 1 ≤ (B + 1) * L := by simpa using h1
    omega
  have h := runCheckpointLoop_eq L B ts ex hL (B + 1) 0 0 hfuel
  have h0 : numIntervalsFrom L B 0 = numIntervals L B := rfl
  rw [h0] at h
  unfold scriptRun
  rw [h]
  simp

theorem numIntervals_mul {L : Nat} (N : Nat) (hL : 0 < L) :
    numIntervals L (N * L) = N := by
  unfold numIntervals
  have h1 : (1 : Nat) ≤ L := hL
  have e1 : N * L + L - 1 = L - 1 + N * L := by
    rw [Nat.add_sub_assoc h1, Nat.add_comm]
  rw [e1, Nat.add_mul_div_right _ _ hL, Nat.div_eq_of_lt (by omega)]
  omega

theorem le_mul_numIntervals {L B : Nat} (hL : 0 < L) :
    B ≤ L * numIntervals L B := by
  unfold numIntervals
  have h1 := Nat.div_add_mod (B + L - 1) L
  have h2 : (B + L - 1) % L < L := Nat.mod_lt _ hL
  generalize L * ((B + L - 1) / L) = x at h1 ⊢
  omega

/-! ## Per-iteration event accounting -/

theorem count_simulate_iterEvents (L c' : Nat) (t : String) (e : Bool) :
    (iterEvents L c' t e).count (Event.simulate (some L)) = 1 := by
  cases e <;> simp [iterEvents, archiveStep]

theorem count_statsDump_iterEvents (L c' : Nat) (t : String) (e : Bool) :
    (iterEvents L c' t e).count Event.statsDump = 1 := by
  cases e <;> simp [iterEvents, archiveStep]

theorem count_statsReset_iterEvents (L c' : Nat) (t : String) (e : Bool) :
    (iterEvents L c' t e).count Event.statsReset = 1 := by
  cases e <;> simp [iterEvents, archiveStep]

theorem count_simulate_loopTrace (L : Nat) (ts : Nat → String) (ex : Nat → Bool) :
    ∀ n c i, (loopTrace L ts ex c i n).count (Event.simulate (some L)) = n := by
  intro n
  induction n with
  | zero => intro c i; simp [loopTrace]
  | succ n ih =>
    intro c i
    simp only [loopTrace, List.count_append, ih, count_simulate_iterEvents]
    omega

theorem count_statsDump_loopTrace (L : Nat) (ts : Nat → String) (ex : Nat → Bool) :
    ∀ n c i, (loopTrace L ts ex c i n).count Event.statsDump = n := by
  intro n
  induction n with
  | zero => intro c i; simp [loopTrace]
  | succ n ih =>
    intro c i
    simp only [loopTrace, List.count_append, ih, count_statsDump_iterEvents]
    omega

theorem count_statsReset_loopTrace (L : Nat) (ts : Nat → String) (ex : Nat → Bool) :
    ∀ n c i, (loopTrace L ts ex c i n).count Event.statsReset = n := by
  intro n
  induction n with
  | zero => intro c i; simp [loopTrace]
  | succ n ih =>
    intro c i
    simp only [loopTrace, List.count_append, ih, count_statsReset_iterEvents]
    omega

theorem simulate_mem_iterEvents {L c' : Nat} {t : String} {e : Bool} {d : Option Nat}
    (h : Event.simulate d ∈ iterEvents L c' t e) : d = some L := by
  cases e <;> simp [iterEvents, archiveStep] at h <;> exact h

theorem simulate_mem_loopTrace {L : Nat} {ts : Nat → String} {ex : Nat → Bool} :
    ∀ {n c i d}, Event.simulate d ∈ loopTrace L ts ex c i n → d = some L := by
  intro n
  induction n with
  | zero => intro c i d h; simp [loopTrace] at h
  | succ n ih =>
    intro c i d h
    rw [loopTrace, List.mem_append] at h
    rcases h with h | h
    · exact simulate_mem_iterEvents h
    · exact ih h

theorem rename_mem_iterEvents {L c' : Nat} {t : String} {e : Bool} {src dest : String}
    (h : Event.rename src dest ∈ iterEvents L c' t e) :
    e = true ∧ src = stats_file_path ∧ dest = new_stats_filename t c' := by
  cases e <;> simp [iterEvents, archiveStep] at h
  exact ⟨rfl, h.1, h.2⟩

theorem rename_mem_loopTrace {L : Nat} {ts : Nat → String} {ex : Nat → Bool} :
    ∀ {n c i src dest}, Event.rename src dest ∈ loopTrace L ts ex c i n →
      ∃ k, k < n ∧ ex (i + k) = true ∧ src = stats_file_path ∧
        dest = new_stats_filename (ts (i + k)) (c + (k + 1) * L) := by
  intro n
  induction n with
  | zero => intro c i src dest h; simp [loopTrace] at h
  | succ n ih =>
    intro c i src dest h
    rw [loopTrace, List.mem_append] at h
    rcases h with h | h
    · obtain ⟨he, hs, hd⟩ := rename_mem_iterEvents h
      refine ⟨0, Nat.succ_pos n, ?_, hs, ?_⟩
      · simpa using he
      · simpa using hd
    · obtain ⟨k, hk, he, hs, hd⟩ := ih h
      have h2 : c + L + (k + 1) * L = c + (k + 1 + 1) * L := by ring
      have hi : i + 1 + k = i + (k + 1) := by omega
      rw [h2, hi] at hd
      rw [hi] at he
      exact ⟨k + 1, by omega, he, hs, hd⟩

/-! ## Injectivity of the decimal rendering used in the filenames

`Nat.repr` (the rendering behind the f-string `{current_cycle}`) is shown
injective by exhibiting a decoding of its digit list. -/


theorem decDigit_digitChar {d : Nat} (h : d < 10) :
    decDigit (Nat.digitChar d) = d := by
  interval_cases d <;> decide

theorem decList_append_singleton (xs : List Char) (c : Char) :
    decList (xs ++ [c]) = 10 * decList xs + decDigit c := by
  simp [decList, List.foldl_append]

theorem decList_natDigits : ∀ n, decList (natDigits n) = n := by
  intro n
  induction n using Nat.strong_induction_on with
  | _ n ih =>
    rw [natDigits]
    by_cases h : n < 10
    · rw [dif_pos h]
      simp [decList, decDigit_digitChar h]
    · rw [dif_neg h]
      rw [decList_append_singleton,
        ih (n / 10) (Nat.div_lt_self (by omega) (by omega)),
        decDigit_digitChar (Nat.mod_lt _ (by omega))]
      omega

theorem toDigitsCore_eq_natDigits :
    ∀ (fuel n : Nat) (acc : List Char), n < fuel →
      Nat.toDigitsCore 10 fuel n acc = natDigits n ++ acc := by
  intro fuel
  induction fuel with
  | zero => intro n acc h; omega
  | succ fuel ih =>
    intro n acc h
    simp only [Nat.toDigitsCore]
    by_cases h10 : n / 10 = 0
    · rw [if_pos h10]
      rw [natDigits, dif_pos (by omega)]
      have hm : n % 10 = n := Nat.mod_eq_of_lt (by omega)
      simp [hm]
    · rw [if_neg h10]
      rw [ih (n / 10) _ (by omega)]
      conv_rhs => rw [natDigits, dif_neg (show ¬(n < 10) by omega)]
      simp [List.append_assoc]

theorem repr_data_eq_natDigits (n : Nat) : (Nat.repr n).data = natDigits n := by
  unfold Nat.repr
  rw [Nat.toDigits, toDigitsCore_eq_natDigits (n + 1) n [] (Nat.lt_succ_self n)]
  simp [List.asString]

theorem natRepr_injective {m n : Nat} (h : Nat.repr m = Nat.repr n) : m = n := by
  have hd : natDigits m = natDigits n := by
    rw [← repr_data_eq_natDigits, ← repr_data_eq_natDigits, h]
  calc m = decList (natDigits m) := (decList_natDigits m).symm
    _ = decList (natDigits n) := by rw [hd]
    _ = n := decList_natDigits n

/-- The archive filename written out flat. -/
theorem new_stats_filename_eq (t : String) (c : Nat) :
    new_stats_filename t c =
      "m5out/stats_" ++ t ++ "_cycle_" ++ Nat.repr c ++ ".txt" := by
  apply String.ext
  unfold new_stats_filename pathJoin m5out_dir
  simp only [String.data_append]
  simp [List.append_assoc]

/-- Two archive filenames built from equal-length timestamps agree only if
both the timestamp and the cycle count agree.  (The script's timestamps all
come from `time.strftime("%Y%m%d-%H%M%S")`, so they share one length.) -/
theorem new_stats_filename_inj {t1 t2 : String} {c1 c2 : Nat}
    (hlen : t1.length = t2.length)
    (h : new_stats_filename t1 c1 = new_stats_filename t2 c2) :
    t1 = t2 ∧ c1 = c2 := by
  rw [new_stats_filename_eq, new_stats_filename_eq] at h
  have hd := congrArg String.data h
  simp only [String.data_append] at hd
  have ha := List.append_cancel_right hd
  have hlen2 : ((("m5out/stats_" : String).data ++ t1.data) ++ ("_cycle_" : String).data).length
      = ((("m5out/stats_" : String).data ++ t2.data) ++ ("_cycle_" : String).data).length := by
    simp [String.length_data, hlen]
  obtain ⟨hb, hr⟩ := List.append_inj ha hlen2
  have hc : c1 = c2 := natRepr_injective (String.ext hr)
  have ht : t1 = t2 := String.ext (List.append_cancel_left (List.append_cancel_right hb))
  exact ⟨ht, hc⟩

/-! ## Archive-name accounting -/

theorem archivedNames_append (a b : List Event) :
    archivedNames (a ++ b) = archivedNames a ++ archivedNames b := by
  simp [archivedNames]

theorem archivedNames_iterEvents (L c' : Nat) (t : String) (e : Bool) :
    archivedNames (iterEvents L c' t e) =
      if e then [new_stats_filename t c'] else [] := by
  cases e <;> rfl

theorem count_simulate_none_iterEvents (L c' : Nat) (t : String) (e : Bool) :
    (iterEvents L c' t e).count (Event.simulate none) = 0 := by
  cases e <;> simp [iterEvents, archiveStep]

theorem count_simulate_none_loopTrace (L : Nat) (ts : Nat → String) (ex : Nat → Bool) :
    ∀ n c i, (loopTrace L ts ex c i n).count (Event.simulate none) = 0 := by
  intro n
  induction n with
  | zero => intro c i; simp [loopTrace]
  | succ n ih =>
    intro c i
    simp only [loopTrace, List.count_append, ih, count_simulate_none_iterEvents]

/-- The archive names the loop emits form a sublist of the full per-iteration
name family (one name per iteration, indexed by the post-increment counter). -/
theorem archivedNames_loopTrace_sublist (L : Nat) (ts : Nat → String) (ex : Nat → Bool) :
    ∀ n c i, (archivedNames (loopTrace L ts ex c i n)).Sublist
      ((List.range n).map fun k => new_stats_filename (ts (i + k)) (c + (k + 1) * L)) := by
  intro n
  induction n with
  | zero => intro c i; simp [loopTrace, archivedNames]
  | succ n ih =>
    intro c i
    rw [loopTrace, archivedNames_append, archivedNames_iterEvents]
    have hfun : ((fun k => new_stats_filename (ts (i + k)) (c + (k + 1) * L)) ∘ Nat.succ) =
        fun k => new_stats_filename (ts (i + 1 + k)) (c + L + (k + 1) * L) := by
      funext k
      simp only [Function.comp_apply]
      have h1 : i + Nat.succ k = i + 1 + k := by omega
      have h2 : c + (Nat.succ k + 1) * L = c + L + (k + 1) * L := by
        rw [Nat.succ_eq_add_one]; ring
      rw [h1, h2]
    have hrange : ((List.range (n + 1)).map
        fun k => new_stats_filename (ts (i + k)) (c + (k + 1) * L)) =
        new_stats_filename (ts i) (c + L) ::
          ((List.range n).map fun k =>
            new_stats_filename (ts (i + 1 + k)) (c + L + (k + 1) * L)) := by
      rw [List.range_succ_eq_map, List.map_cons, List.map_map, hfun]
      simp
    rw [hrange]
    cases hx : ex i
    · have h := (ih (c + L) (i + 1)).cons (new_stats_filename (ts i) (c + L))
      simpa using h
    · have h := (ih (c + L) (i + 1)).cons₂ (new_stats_filename (ts i) (c + L))
      simpa using h

/-- Within one run the loop's archived filenames are pairwise distinct: the
embedded cycle counts strictly increase, and `new_stats_filename` is injective
in the cycle count for equal-length timestamps. -/
theorem archivedNames_loopTrace_pairwise (L : Nat) (ts : Nat → String) (ex : Nat → Bool)
    (hL : 0 < L) (hts : ∀ i j, (ts i).length = (ts j).length) (n c i : Nat) :
    (archivedNames (loopTrace L ts ex c i n)).Pairwise (fun a b => a ≠ b) := by
  have hmap : (((List.range n).map fun k =>
      new_stats_filename (ts (i + k)) (c + (k + 1) * L))).Pairwise (fun a b => a ≠ b) := by
    rw [List.pairwise_map]
    refine (List.pairwise_lt_range n).imp ?_
    intro a b hab heq
    obtain ⟨-, hcc⟩ := new_stats_filename_inj (hts _ _) heq
    have h1 : (a + 1) * L = (b + 1) * L := Nat.add_left_cancel hcc
    have h2 := Nat.eq_of_mul_eq_mul_right hL h1
    omega
  exact hmap.sublist (archivedNames_loopTrace_sublist L ts ex n c i)

/-! ## The claims -/

/-- Claim C1. For every schedule with `totalBudget = N * intervalLength`
(`N ≥ 1`), the run/checkpoint loop performs exactly `N` iterations — the loop
trace is `N` blocks of `iterEvents`, each one `m5.simulate(L)`, one stats
dump, one stats reset and one archive step in that order — and
`current_cycle` equals the total budget `N * L` when the loop exits. -/
theorem C1_exact_multiple_schedule (L N : Nat) (ts : Nat → String) (ex : Nat → Bool)
    (hL : 0 < L) (_hN : 1 ≤ N) :
    scriptRun L (N * L) ts ex =
      some (loopTrace L ts ex 0 0 N ++ scriptTail, N * L) ∧
    (loopTrace L ts ex 0 0 N).count (Event.simulate (some L)) = N ∧
    (loopTrace L ts ex 0 0 N).count Event.statsDump = N ∧
    (loopTrace L ts ex 0 0 N).count Event.statsReset = N := by
  have h := scriptRun_eq L (N * L) ts ex hL
  rw [numIntervals_mul N hL, Nat.mul_comm L N] at h
  exact ⟨h, count_simulate_loopTrace L ts ex N 0 0,
    count_statsDump_loopTrace L ts ex N 0 0, count_statsReset_loopTrace L ts ex N 0 0⟩

/-- Witness for C1 at the script's own schedule (`cycle_interval = 10`,
`total_cycles = 100 = 10 * 10`). -/
theorem C1_exact_multiple_schedule_witness :
    scriptRun 10 (10 * 10) (fun _ => "20251012-120000") (fun _ => true) =
      some (loopTrace 10 (fun _ => "20251012-120000") (fun _ => true) 0 0 10 ++ scriptTail,
            10 * 10) ∧
    (loopTrace 10 (fun _ => "20251012-120000") (fun _ => true) 0 0 10).count
      (Event.simulate (some 10)) = 10 ∧
    (loopTrace 10 (fun _ => "20251012-120000") (fun _ => true) 0 0 10).count
      Event.statsDump = 10 ∧
    (loopTrace 10 (fun _ => "20251012-120000") (fun _ => true) 0 0 10).count
      Event.statsReset = 10 :=
  C1_exact_multiple_schedule 10 10 (fun _ => "20251012-120000") (fun _ => true)
    (by decide) (by decide)

/-- Claim C2. For a budget that is not an exact multiple of the interval length
the loop performs exactly `⌈B/L⌉ = (B + L - 1)/L` advances, every advance in
the loop is for the full `L` (never a truncated final chunk), and the counter
at loop exit is `≥ B`. -/
theorem C2_non_multiple_schedule (L B : Nat) (ts : Nat → String) (ex : Nat → Bool)
    (hL : 0 < L) (_hnd : ¬ L ∣ B) :
    scriptRun L B ts ex =
      some (loopTrace L ts ex 0 0 (numIntervals L B) ++ scriptTail,
            L * numIntervals L B) ∧
    (loopTrace L ts ex 0 0 (numIntervals L B)).count (Event.simulate (some L)) =
      (B + L - 1) / L ∧
    (∀ d, Event.simulate d ∈ loopTrace L ts ex 0 0 (numIntervals L B) → d = some L) ∧
    B ≤ L * numIntervals L B :=
  ⟨scriptRun_eq L B ts ex hL,
    count_simulate_loopTrace L ts ex (numIntervals L B) 0 0,
    fun _ hd => simulate_mem_loopTrace hd,
    le_mul_numIntervals hL⟩

/-- Witness for C2 at `L = 10`, `B = 25` (3 full advances, final counter 30). -/
theorem C2_non_multiple_schedule_witness :
    scriptRun 10 25 (fun _ => "20251012-120000") (fun _ => true) =
      some (loopTrace 10 (fun _ => "20251012-120000") (fun _ => true) 0 0
              (numIntervals 10 25) ++ scriptTail, 10 * numIntervals 10 25) ∧
    (loopTrace 10 (fun _ => "20251012-120000") (fun _ => true) 0 0
      (numIntervals 10 25)).count (Event.simulate (some 10)) = (25 + 10 - 1) / 10 ∧
    (∀ d, Event.simulate d ∈ loopTrace 10 (fun _ => "20251012-120000") (fun _ => true) 0 0
      (numIntervals 10 25) → d = some 10) ∧
    25 ≤ 10 * numIntervals 10 25 :=
  C2_non_multiple_schedule 10 25 (fun _ => "20251012-120000") (fun _ => true)
    (by decide) (by decide)

/-- Claim C10. For every `intervalLength ≥ 1` and every budget the loop
terminates (the run is `some`) with a final counter `≥ B`.  Each iteration
with `current_cycle < B` prepends its events and re-enters at `current_cycle
+ L` with everything else passed through — the `+= L` is the loop's only
modification of the counter — and as soon as `current_cycle ≥ B` the loop
exits immediately with the counter untouched. -/
theorem C10_loop_terminates (L B : Nat) (ts : Nat → String) (ex : Nat → Bool)
    (hL : 1 ≤ L) :
    (∃ evs fin, scriptRun L B ts ex = some (evs, fin) ∧ B ≤ fin) ∧
    (∀ fuel c i, c < B →
      runCheckpointLoop L B ts ex (fuel + 1) c i =
        (runCheckpointLoop L B ts ex fuel (c + L) (i + 1)).map
          (fun p => (iterEvents L (c + L) (ts i) (ex i) ++ p.1, p.2))) ∧
    (∀ fuel c i, B ≤ c → runCheckpointLoop L B ts ex fuel c i = some ([], c)) := by
  refine ⟨⟨_, _, scriptRun_eq L B ts ex hL, le_mul_numIntervals hL⟩, ?_, ?_⟩
  · intro fuel c i hc
    simp only [runCheckpointLoop, if_pos hc]
    cases hx : runCheckpointLoop L B ts ex fuel (c + L) (i + 1) with
    | none => rfl
    | some p => cases p with | mk evs fin => rfl
  · intro fuel c i hc
    cases fuel with
    | zero => simp [runCheckpointLoop, Nat.not_lt.mpr hc]
    | succ f => simp [runCheckpointLoop, Nat.not_lt.mpr hc]

/-- Witness for C10 at the script's schedule. -/
theorem C10_loop_terminates_witness :
    ∃ evs fin, scriptRun 10 100 (fun _ => "20251012-120000") (fun _ => true) =
      some (evs, fin) ∧ 100 ≤ fin :=
  (C10_loop_terminates 10 100 (fun _ => "20251012-120000") (fun _ => true) (by decide)).1

/-- Claim C7. After the loop exactly one further unconditional dump is
performed (the loop part `pre` contains exactly `⌈B/L⌉` dumps, so this is the
one extra), and the events after it are only the argument-less
`m5.simulate()` and the completion message — no stats reset and no rename —
so the terminal snapshot is left at the well-known path, not archived. -/
theorem C7_trailing_dump (L B : Nat) (ts : Nat → String) (ex : Nat → Bool)
    (hL : 0 < L) :
    ∃ pre post,
      scriptRun L B ts ex = some (pre ++ Event.statsDump :: post, L * numIntervals L B) ∧
      pre = loopTrace L ts ex 0 0 (numIntervals L B) ∧
      pre.count Event.statsDump = numIntervals L B ∧
      post = [Event.simulate none,
              Event.output "Detailed cycle-by-cycle simulation complete."] ∧
      Event.statsReset ∉ post ∧
      (∀ src dest, Event.rename src dest ∉ post) := by
  refine ⟨loopTrace L ts ex 0 0 (numIntervals L B),
    [Event.simulate none, Event.output "Detailed cycle-by-cycle simulation complete."],
    scriptRun_eq L B ts ex hL, rfl,
    count_statsDump_loopTrace L ts ex (numIntervals L B) 0 0, rfl, by decide, ?_⟩
  intro src dest h
  simp at h

/-- Witness for C7 at the script's schedule. -/
theorem C7_trailing_dump_witness :
    ∃ pre post,
      scriptRun 10 100 (fun _ => "20251012-120000") (fun _ => true) =
        some (pre ++ Event.statsDump :: post, 10 * numIntervals 10 100) ∧
      pre = loopTrace 10 (fun _ => "20251012-120000") (fun _ => true) 0 0
              (numIntervals 10 100) ∧
      pre.count Event.statsDump = numIntervals 10 100 ∧
      post = [Event.simulate none,
              Event.output "Detailed cycle-by-cycle simulation complete."] ∧
      Event.statsReset ∉ post ∧
      (∀ src dest, Event.rename src dest ∉ post) :=
  C7_trailing_dump 10 100 (fun _ => "20251012-120000") (fun _ => true) (by decide)

/-- Claim C4, amended. After the loop and the final dump, the script makes one
further call to the engine's advance operation with NO duration argument —
`m5.simulate()` — and that argument-less call is the only advance without the
full interval argument in the whole run.  The script passes no explicit zero
duration and does not itself constrain how far this final call advances
simulated time. -/
theorem C4_final_simulate_argumentless (L B : Nat) (ts : Nat → String) (ex : Nat → Bool)
    (hL : 0 < L) :
    ∃ evs, scriptRun L B ts ex = some (evs, L * numIntervals L B) ∧
      evs = loopTrace L ts ex 0 0 (numIntervals L B) ++
        [Event.statsDump, Event.simulate none,
         Event.output "Detailed cycle-by-cycle simulation complete."] ∧
      evs.count (Event.simulate none) = 1 := by
  refine ⟨_, scriptRun_eq L B ts ex hL, rfl, ?_⟩
  rw [List.count_append, count_simulate_none_loopTrace L ts ex (numIntervals L B) 0 0]
  decide

/-- Witness for the amended C4 at the script's schedule. -/
theorem C4_final_simulate_argumentless_witness :
    ∃ evs, scriptRun 10 100 (fun _ => "20251012-120000") (fun _ => true) =
      some (evs, 10 * numIntervals 10 100) ∧
      evs = loopTrace 10 (fun _ => "20251012-120000") (fun _ => true) 0 0
              (numIntervals 10 100) ++
        [Event.statsDump, Event.simulate none,
         Event.output "Detailed cycle-by-cycle simulation complete."] ∧
      evs.count (Event.simulate none) = 1 :=
  C4_final_simulate_argumentless 10 100 (fun _ => "20251012-120000") (fun _ => true)
    (by decide)

/-- Claim C4, counterexample to the claim as stated. In the script's actual
run (`cycle_interval = 10`, `total_cycles = 100`, stats file always present),
no zero-duration advance `m5.simulate(0)` occurs anywhere in the trace; what
follows the final dump is the argument-less `m5.simulate()`. -/
theorem C4_no_zero_duration_simulate :
    scriptRun cycle_interval total_cycles (fun _ => "20251012-120000") (fun _ => true) =
      some (loopTrace 10 (fun _ => "20251012-120000") (fun _ => true) 0 0 10 ++ scriptTail,
            100) ∧
    Event.simulate (some 0) ∉
      loopTrace 10 (fun _ => "20251012-120000") (fun _ => true) 0 0 10 ++ scriptTail ∧
    (loopTrace 10 (fun _ => "20251012-120000") (fun _ => true) 0 0 10 ++ scriptTail).drop 50 =
      [Event.statsDump, Event.simulate none,
       Event.output "Detailed cycle-by-cycle simulation complete."] :=
  ⟨by decide, by decide, by decide⟩

/-- Claim C6. A missing stats file at archive time makes that iteration's
archive step exactly the warning print — no rename, nothing else, and the
step is total (the loop raises nothing and does not abort) — and the loop
proceeds identically otherwise: for any two patterns of missing files the
run completes with the same final counter and the same number of dumps. -/
theorem C6_missing_stats_file_nonfatal (L B : Nat) (ts : Nat → String)
    (ex ex' : Nat → Bool) (hL : 0 < L) :
    (∀ t c, archiveStep t c false = [Event.output "stats.txt not found in m5out."]) ∧
    (∃ evs fin, scriptRun L B ts ex = some (evs, fin)) ∧
    (scriptRun L B ts ex).map Prod.snd = (scriptRun L B ts ex').map Prod.snd ∧
    (scriptRun L B ts ex).map (fun p => p.1.count Event.statsDump) =
      (scriptRun L B ts ex').map (fun p => p.1.count Event.statsDump) := by
  refine ⟨fun t c => rfl, ⟨_, _, scriptRun_eq L B ts ex hL⟩, ?_, ?_⟩
  · rw [scriptRun_eq L B ts ex hL, scriptRun_eq L B ts ex' hL]
    rfl
  · rw [scriptRun_eq L B ts ex hL, scriptRun_eq L B ts ex' hL]
    simp [List.count_append, count_statsDump_loopTrace]

/-- Witness for C6: every iteration misses the file vs. none does. -/
theorem C6_missing_stats_file_nonfatal_witness :
    (∀ t c, archiveStep t c false = [Event.output "stats.txt not found in m5out."]) ∧
    (∃ evs fin, scriptRun 10 100 (fun _ => "20251012-120000") (fun _ => false) =
      some (evs, fin)) ∧
    (scriptRun 10 100 (fun _ => "20251012-120000") (fun _ => false)).map Prod.snd =
      (scriptRun 10 100 (fun _ => "20251012-120000") (fun _ => true)).map Prod.snd ∧
    (scriptRun 10 100 (fun _ => "20251012-120000") (fun _ => false)).map
        (fun p => p.1.count Event.statsDump) =
      (scriptRun 10 100 (fun _ => "20251012-120000") (fun _ => true)).map
        (fun p => p.1.count Event.statsDump) :=
  C6_missing_stats_file_nonfatal 10 100 (fun _ => "20251012-120000")
    (fun _ => false) (fun _ => true) (by decide)

/-- Claim C5. Within any single run all archived destination filenames are
pairwise distinct — even when two iterations produce the same wall-clock
timestamp string — because the embedded cumulative cycle count strictly
increases from iteration to iteration; hence no archived file is overwritten
by a later archive.  The timestamps are assumed to share one length, as all
outputs of `time.strftime("%Y%m%d-%H%M%S")` do. -/
theorem C5_archived_names_distinct (L B : Nat) (ts : Nat → String) (ex : Nat → Bool)
    (hL : 0 < L) (hts : ∀ i j, (ts i).length = (ts j).length) :
    ∃ evs fin, scriptRun L B ts ex = some (evs, fin) ∧
      (archivedNames evs).Pairwise (fun a b => a ≠ b) := by
  refine ⟨_, _, scriptRun_eq L B ts ex hL, ?_⟩
  rw [archivedNames_append]
  have h2 : archivedNames scriptTail = [] := rfl
  rw [h2, List.append_nil]
  exact archivedNames_loopTrace_pairwise L ts ex hL hts (numIntervals L B) 0 0

/-- Witness for C5: the script's schedule with one fixed timestamp for every
iteration (the worst case the claim singles out). -/
theorem C5_archived_names_distinct_witness :
    ∃ evs fin, scriptRun 10 100 (fun _ => "20251012-120000") (fun _ => true) =
      some (evs, fin) ∧ (archivedNames evs).Pairwise (fun a b => a ≠ b) :=
  C5_archived_names_distinct 10 100 (fun _ => "20251012-120000") (fun _ => true)
    (by decide) (fun _ _ => rfl)

/-- Claim C8. Every rename in the run moves `m5out/stats.txt` to
`m5out/stats_<timestamp>_cycle_<elapsed>.txt`, where `<timestamp>` is the
iteration's wall-clock string (the script formats it with
`time.strftime("%Y%m%d-%H%M%S")`, i.e. `YYYYMMDD-HHMMSS`) and `<elapsed>` is
the cumulative counter after the increment for that iteration — `(k+1)*L`
for the 0-based iteration index `k`. -/
theorem C8_archive_destination_pattern (L B : Nat) (ts : Nat → String) (ex : Nat → Bool)
    (hL : 0 < L) :
    ∃ evs fin, scriptRun L B ts ex = some (evs, fin) ∧
      ∀ src dest, Event.rename src dest ∈ evs →
        src = "m5out/stats.txt" ∧
        ∃ k, k < numIntervals L B ∧ ex k = true ∧
          dest = "m5out/stats_" ++ ts k ++ "_cycle_" ++ Nat.repr ((k + 1) * L) ++ ".txt" := by
  refine ⟨_, _, scriptRun_eq L B ts ex hL, ?_⟩
  intro src dest h
  rw [List.mem_append] at h
  rcases h with h | h
  · obtain ⟨k, hk, he, hs, hd⟩ := rename_mem_loopTrace h
    refine ⟨by rw [hs]; rfl, k, hk, by simpa using he, ?_⟩
    rw [hd, new_stats_filename_eq]
    simp
  · simp [scriptTail] at h

/-- Witness for C8 at the script's schedule. -/
theorem C8_archive_destination_pattern_witness :
    ∃ evs fin, scriptRun 10 100 (fun _ => "20251012-120000") (fun _ => true) =
      some (evs, fin) ∧
      ∀ src dest, Event.rename src dest ∈ evs →
        src = "m5out/stats.txt" ∧
        ∃ k, k < numIntervals 10 100 ∧ (fun _ : Nat => true) k = true ∧
          dest = "m5out/stats_" ++ (fun _ : Nat => "20251012-120000") k ++ "_cycle_" ++
            Nat.repr ((k + 1) * 10) ++ ".txt" :=
  C8_archive_destination_pattern 10 100 (fun _ => "20251012-120000") (fun _ => true)
    (by decide)

/-- Claim C3, evaluation at the failing input. The claim says configuring a
thread count above 1 on a CPU class without multithreading support fails with
a `ConfigurationError` before any assignment.  The script instead assigns
`system.cpu[0].numThreads = 2` unconditionally: with `--smt` absent and the
CPU class `TimingSimpleCPU` — which the script's own `assert` treats as not
supporting multithreading — configuration completes with no error of any
kind and the CPU ends up mutated with `numThreads = 2`.  (The only error the
configuration phase can produce at all is the Python `AssertionError` from
`get_processes`, raised only when `--smt` is passed — also not a
`ConfigurationError`, as the second conjunct shows.) -/
theorem C3_numThreads_assigned_without_support_check :
    supportsSMT CpuType.timingSimple = false ∧
    configureScript false CpuType.timingSimple 1 1 =
      Except.ok [{ branchPred := some "StaticPred", issueWidth := some 4,
                   numThreads := some 2 }] ∧
    configureScript true CpuType.timingSimple 1 1 =
      Except.error (ScriptError.assertionError "args.cpu_type == DerivO3CPU") :=
  ⟨rfl, rfl, rfl⟩

/-- Claim C9. For the out-of-order CPU class, after the configuration phase
every CPU instance's fetch, decode, issue, execute and commit width fields
hold exactly the requested width values (the script requests 4 for each) —
no later configuration step clamps or adjusts them. -/
theorem C9_stage_widths_exact (np : Nat) (c : CPUState)
    (h : c ∈ configureCpus CpuType.derivO3 np) :
    c.fetchWidth = some 4 ∧ c.decodeWidth = some 4 ∧ c.issueWidth = some 4 ∧
    c.executeWidth = some 4 ∧ c.commitWidth = some 4 := by
  simp only [configureCpus, if_true] at h
  rw [List.mem_map] at h
  obtain ⟨x, -, rfl⟩ := h
  exact ⟨rfl, rfl, rfl, rfl, rfl⟩

/-- Witness for C9: the fully configured cpu 0 of a one-CPU `DerivO3CPU`
system. -/
theorem C9_stage_widths_exact_witness :
    ({ branchPred := some "StaticPred", issueWidth := some 4, fetchWidth := some 4,
       decodeWidth := some 4, executeWidth := some 4, commitWidth := some 4,
       numThreads := some 2, tracer := some "ExeTracer",
       progressInterval := some 1 } : CPUState).fetchWidth = some 4 ∧
    ({ branchPred := some "StaticPred", issueWidth := some 4, fetchWidth := some 4,
       decodeWidth := some 4, executeWidth := some 4, commitWidth := some 4,
       numThreads := some 2, tracer := some "ExeTracer",
       progressInterval := some 1 } : CPUState).decodeWidth = some 4 ∧
    ({ branchPred := some "StaticPred", issueWidth := some 4, fetchWidth := some 4,
       decodeWidth := some 4, executeWidth := some 4, commitWidth := some 4,
       numThreads := some 2, tracer := some "ExeTracer",
       progressInterval := some 1 } : CPUState).issueWidth = some 4 ∧
    ({ branchPred := some "StaticPred", issueWidth := some 4, fetchWidth := some 4,
       decodeWidth := some 4, executeWidth := some 4, commitWidth := some 4,
       numThreads := some 2, tracer := some "ExeTracer",
       progressInterval := some 1 } : CPUState).executeWidth = some 4 ∧
    ({ branchPred := some "StaticPred", issueWidth := some 4, fetchWidth := some 4,
       decodeWidth := some 4, executeWidth := some 4, commitWidth := some 4,
       numThreads := some 2, tracer := some "ExeTracer",
       progressInterval := some 1 } : CPUState).commitWidth = some 4 :=
  C9_stage_widths_exact 1 _ (by decide)
